import Mathlib

/-!
Verification of `discordLevelingSystem/rank_card.py` against its
natural-language specification.

`RankCard._convert_number`, `RankCard._image` and `RankCard.create` are
translated from the source.  Python floats are modelled as exact rationals
(`ℚ`); the `f"{x:.3f}"` fixed-point formatting is modelled by exact decimal
rounding at the third decimal (half rounds to even).  I/O (network fetches,
`open` calls, bundled-asset loads) and drawing commands are recorded as an
explicit trace of `Effect`s in program order, with the results of fetches,
file decodes and text measurement supplied by an `Env` of oracles.
Exception messages are elided: only the exception kind (`InvalidImageType`,
`InvalidImageUrl`, imported from `.errors`) is modelled.  Decoded images are
tracked by their dimensions.
-/

/-- Pads a natural number below 1000 to exactly three decimal digits. -/
def pad3 (n : ℕ) : String :=
  if n < 10 then "00" ++ toString n
  else if n < 100 then "0" ++ toString n
  else toString n

/-- Models the Python expression `f"{n/d:.3f}"`: the quotient `n / d`
rendered with exactly three digits after the decimal point, the third
decimal obtained by rounding (half to even). -/
def divFixed3 (n d : ℕ) : String :=
  let t0 := n * 1000 / d
  let r := n * 1000 % d
  let t := if 2 * r < d then t0
           else if d < 2 * r then t0 + 1
           else if t0 % 2 = 0 then t0 else t0 + 1
  toString (t / 1000) ++ "." ++ pad3 (t % 1000)

/-- Spec-side formatter: a nonnegative rational rendered with exactly three
digits after the decimal point (half rounds to even). -/
def fixed3 (q : ℚ) : String :=
  let f := ⌊q * 1000⌋₊
  let r := q * 1000 - (f : ℚ)
  let t := if r < 1/2 then f
           else if 1/2 < r then f + 1
           else if f % 2 = 0 then f else f + 1
  toString (t / 1000) ++ "." ++ pad3 (t % 1000)

/-- Python's `str.startswith`, as a computation on the character lists of
the two strings. -/
def pyStartsWith (s p : String) : Bool := p.data.isPrefixOf s.data

/-- A decoded in-memory image (PIL `Image`); only its dimensions are
tracked. -/
structure RasterImage where
  width : ℕ
  height : ℕ
deriving DecidableEq

/-- The `BytesIO` buffer returned by `create`: dimensions and encoding
format of the image saved into it, and the buffer's current read
position. -/
structure OutBuffer where
  width : ℕ
  height : ℕ
  format : String
  pos : ℕ
deriving DecidableEq

/-- `buffer.seek(p)`. -/
def OutBuffer.seekTo (b : OutBuffer) (p : ℕ) : OutBuffer :=
  { b with pos := p }

/-- A value held in the `background` / `avatar` fields of a `RankCard`: a
file-like object (Python `IOBase`, observed through `seekable()`,
`readable()` and `mode`), a string, an already decoded image, or a value
of any other type. -/
inductive ImgSource where
  | buffer (seekable readable : Bool) (mode : String)
  | str (s : String)
  | image (img : RasterImage)
  | other
deriving DecidableEq

/-- The two exception kinds raised by `rank_card.py` (from `.errors`). -/
inductive CardError where
  | invalidImageType
  | invalidImageUrl
deriving DecidableEq

/-- Observable actions of `create`, in program order: network fetches,
`open(path, mode)` calls, bundled-asset loads, and draw commands (text with
its font point size, rounded rectangles with their corner radius). -/
inductive Effect where
  | fetch (url : String)
  | fileOpen (path mode : String)
  | assetOpen (name : String)
  | drawText (x y : ℚ) (text : String) (fontSize : ℕ)
  | drawRect (x0 y0 x1 y1 : ℚ) (radius : ℕ)
deriving DecidableEq

/-- Oracles for the outside world: HTTP status and decoded body per URL,
decoded image per local file, the decode of a background buffer, bundled
assets by file name, text measurement (`draw.textsize`) per font point
size, and the byte length of the final PNG encoding (the buffer position
right after `save`). -/
structure Env where
  fetchStatus : String → ℕ
  fetchImg : String → RasterImage
  fileImg : String → RasterImage
  bufferImg : RasterImage
  assetImg : String → RasterImage
  textWidth : ℕ → String → ℚ
  pngSize : ℕ

/-- The fields of a `RankCard` instance (the three `Settings` fields are
copied in by `RankCard.__init__`, exactly as in the source). -/
structure CardState where
  background : ImgSource
  avatar : ImgSource
  level : ℕ
  username : String
  current_xp : ℕ
  max_xp : ℕ
  bar_color : String
  text_color : String
deriving DecidableEq

/-- Outcome of a `create` call: either a raised exception or the returned
buffer, in both cases together with the fields of `self` as they stand at
that moment (`create` mutates `self.background` / `self.avatar`). -/
inductive CreateResult where
  | err (e : CardError) (s : CardState)
  | ok (buf : OutBuffer) (s : CardState)
deriving DecidableEq

namespace RankCard

/-- `RankCard._convert_number` (rank_card.py lines 136-143). -/
def _convert_number (number : ℕ) : String :=
  if 1000000 ≤ number then divFixed3 number 1000000 ++ "M"
  else if 1000 ≤ number then divFixed3 number 1000 ++ "K"
  else toString number

/-- `RankCard._image` (lines 145-152): one GET per call; a status other
than 200 raises `InvalidImageUrl`, otherwise the response body is decoded.
The status and the decoded body are supplied by oracles, so that the
result's independence from the body decode in the error case is
expressible. -/
def _image (fetchStatus : String → ℕ) (fetchImg : String → RasterImage)
    (url : String) : Except CardError RasterImage :=
  if fetchStatus url ≠ 200 then .error .invalidImageUrl
  else .ok (fetchImg url)

/-- Lines 173-183: resolution of `self.background`, returning the I/O trace
and either the decoded image or the raised exception kind. -/
def resolveBg (env : Env) (src : ImgSource) :
    List Effect × Except CardError RasterImage :=
  match src with
  | .buffer sk rd m =>
      if sk && rd && (m == "rb") then ([], .ok env.bufferImg)
      else ([], .error .invalidImageType)
  | .str b =>
      if pyStartsWith b "http" then
        ([.fetch b], _image env.fetchStatus env.fetchImg b)
      else ([.fileOpen b "rb"], .ok (env.fileImg b))
  | _ => ([], .error .invalidImageType)

/-- Lines 185-191: resolution of `self.avatar`; only strings are accepted
(URL or, falling through the `startswith("http")` test, a local path opened
with `open(self.avatar, "rb")`). -/
def resolveAvatar (env : Env) (src : ImgSource) :
    List Effect × Except CardError RasterImage :=
  match src with
  | .str a =>
      if pyStartsWith a "http" then
        ([.fetch a], _image env.fetchStatus env.fetchImg a)
      else ([.fileOpen a "rb"], .ok (env.fileImg a))
  | _ => ([], .error .invalidImageType)

/-- Lines 207-209: `bar_exp = (current_xp/max_xp)*420`, then
`if bar_exp <= 50: bar_exp = 50`.  There is no upper bound in the source. -/
def bar_exp (current_xp max_xp : ℕ) : ℚ :=
  let b : ℚ := ((current_xp : ℚ) / (max_xp : ℚ)) * 420
  if b ≤ 50 then 50 else b

/-- Lines 193-243: the compositing pipeline run once both sources are
resolved.  Returns the asset/draw trace in program order, the returned
buffer, the final `self.background` image and the final `self.avatar`
image.  Pastes never change a canvas's dimensions, so only `resize` and
`Image.new` are reflected in the tracked sizes: the avatar is resized to
170×170 (line 193), the working canvas takes the overlay asset's size
(lines 195-201), and the final canvas is resized to 505×259 (line 238). -/
def composePhase (env : Env) (bg av : RasterImage) (s : CardState) :
    List Effect × OutBuffer × RasterImage × RasterImage :=
  let avatar1 : RasterImage := ⟨170, 170⟩
  let overlay := env.assetImg "overlay1.png"
  let canvas : RasterImage := ⟨overlay.width, overlay.height⟩
  let cx := _convert_number s.current_xp
  let mx := _convert_number s.max_xp
  let xpText := cx ++ "/" ++ mx
  let w := env.textWidth 30 xpText
  let be := bar_exp s.current_xp s.max_xp
  let final : RasterImage := ⟨505, 259⟩
  let saved : OutBuffer := ⟨final.width, final.height, "PNG", env.pngSize⟩
  ([Effect.assetOpen "overlay1.png",
    Effect.drawText 205 (327/2 + 20) s.username 40,
    Effect.drawText 197 (327/2 + 125) ("LEVEL - " ++ _convert_number s.level) 30,
    Effect.drawText (638 - w - 50) (327/2 + 125) xpText 30,
    Effect.assetOpen "mask_circle.jpg",
    Effect.drawRect 0 0 420 50 30,
    Effect.drawRect 0 0 be 50 30,
    Effect.assetOpen "curvedoverlay.png"],
   saved.seekTo 0, final, avatar1)

/-- `create` from line 185 on, after the background resolved to `bg`
(which line 176/179/181 already wrote back into `self.background`). -/
def afterBg (env : Env) (s : CardState) (bg : RasterImage) :
    List Effect × CreateResult :=
  let s1 : CardState := { s with background := ImgSource.image bg }
  match resolveAvatar env s.avatar with
  | (t, .error e) => (t, .err e s1)
  | (t, .ok av) =>
      let c := composePhase env bg av s
      (t ++ c.1,
       .ok c.2.1 { s1 with background := ImgSource.image c.2.2.1,
                           avatar := ImgSource.image c.2.2.2 })

/-- `RankCard.create` (lines 154-243): the trace of observable effects in
program order together with the outcome. -/
def create (env : Env) (s : CardState) : List Effect × CreateResult :=
  match resolveBg env s.background with
  | (t, .error e) => (t, .err e s)
  | (t, .ok bg) =>
      let r := afterBg env s bg
      (t ++ r.1, r.2)

end RankCard

/-- The spec's progress-bar formula, written from its words:
`clamp(currentXp/maxXp * 420, 50, 420)`. -/
def barSpecClamp (cx mx : ℚ) : ℚ := min (max (cx / mx * 420) 50) 420

/-- Whether an `ImgSource` is a Python `str`. -/
def isStrSource : ImgSource → Bool
  | .str _ => true
  | _ => false

/-- A concrete oracle environment: every fetch answers 200 with a 600×600
image, local files decode to 640×360, buffers to 800×450, assets are
638×327, every string measures 120 pixels wide, and the PNG encoding is
4242 bytes long. -/
def env0 : Env where
  fetchStatus := fun _ => 200
  fetchImg := fun _ => ⟨600, 600⟩
  fileImg := fun _ => ⟨640, 360⟩
  bufferImg := ⟨800, 450⟩
  assetImg := fun _ => ⟨638, 327⟩
  textWidth := fun _ _ => 120
  pngSize := 4242

/-- `env0` with every fetch answering 404. -/
def env404 : Env :=
  { env0 with fetchStatus := fun _ => 404 }

/-- A concrete card: local-path background, URL avatar. -/
def st0 : CardState where
  background := ImgSource.str "backgrounds/bg.png"
  avatar := ImgSource.str "http://cdn.example/avatar.png"
  level := 5
  username := "Alice"
  current_xp := 250
  max_xp := 1000
  bar_color := "white"
  text_color := "white"

/-- The fields of `st0` as they stand after a successful `create`. -/
def st0Final : CardState :=
  { st0 with background := ImgSource.image ⟨505, 259⟩,
             avatar := ImgSource.image ⟨170, 170⟩ }

/-- A card whose background is a URL and whose avatar is not a string
(e.g. an integer). -/
def stC2 : CardState :=
  { st0 with background := ImgSource.str "http://cdn.example/bg.png",
             avatar := ImgSource.other }

/-- `st0` with the avatar replaced by a non-string value (e.g. an
integer). -/
def stAvatarInt : CardState := { st0 with avatar := ImgSource.other }

/-- `st0` with the background replaced by a text-mode file buffer. -/
def stBufText : CardState := { st0 with background := ImgSource.buffer true true "r" }

/-- `st0` with the background replaced by a URL. -/
def stC5 : CardState := { st0 with background := ImgSource.str "http://cdn.example/bg.png" }

/-- `st0` with the avatar replaced by a local path. -/
def stC10 : CardState := { st0 with avatar := ImgSource.str "avatars/me.png" }

/-! ### Helper lemmas about `create` -/

theorem create_bg_err (env : Env) (s : CardState) (t : List Effect) (e : CardError)
    (h : RankCard.resolveBg env s.background = (t, .error e)) :
    RankCard.create env s = (t, .err e s) := by
  unfold RankCard.create
  rw [h]

theorem create_bg_ok (env : Env) (s : CardState) (t : List Effect) (bg : RasterImage)
    (h : RankCard.resolveBg env s.background = (t, .ok bg)) :
    RankCard.create env s = (t ++ (RankCard.afterBg env s bg).1, (RankCard.afterBg env s bg).2) := by
  unfold RankCard.create
  rw [h]

theorem afterBg_av_err (env : Env) (s : CardState) (bg : RasterImage) (t : List Effect) (e : CardError)
    (h : RankCard.resolveAvatar env s.avatar = (t, .error e)) :
    RankCard.afterBg env s bg = (t, .err e { s with background := ImgSource.image bg }) := by
  unfold RankCard.afterBg
  rw [h]

theorem afterBg_av_ok (env : Env) (s : CardState) (bg : RasterImage) (t : List Effect) (av : RasterImage)
    (h : RankCard.resolveAvatar env s.avatar = (t, .ok av)) :
    RankCard.afterBg env s bg =
      (t ++ (RankCard.composePhase env bg av s).1,
       .ok (RankCard.composePhase env bg av s).2.1
         { s with background := ImgSource.image (RankCard.composePhase env bg av s).2.2.1,
                  avatar := ImgSource.image (RankCard.composePhase env bg av s).2.2.2 }) := by
  unfold RankCard.afterBg
  rw [h]

theorem create_ok_inv (env : Env) (s : CardState) (out : OutBuffer) (s2 : CardState)
    (h : (RankCard.create env s).2 = .ok out s2) :
    ∃ tb bg ta av,
      RankCard.resolveBg env s.background = (tb, .ok bg) ∧
      RankCard.resolveAvatar env s.avatar = (ta, .ok av) ∧
      (RankCard.create env s).1 = tb ++ (ta ++ (RankCard.composePhase env bg av s).1) ∧
      out = (RankCard.composePhase env bg av s).2.1 ∧
      s2 = { s with background := ImgSource.image (RankCard.composePhase env bg av s).2.2.1,
                    avatar := ImgSource.image (RankCard.composePhase env bg av s).2.2.2 } := by
  rcases hb : RankCard.resolveBg env s.background with ⟨tb, bres⟩
  cases bres with
  | error e =>
      rw [create_bg_err env s tb e hb] at h
      exact absurd h (by simp)
  | ok bg =>
      rcases ha : RankCard.resolveAvatar env s.avatar with ⟨ta, ares⟩
      cases ares with
      | error e =>
          rw [create_bg_ok env s tb bg hb, afterBg_av_err env s bg ta e ha] at h
          exact absurd h (by simp)
      | ok av =>
          rw [create_bg_ok env s tb bg hb, afterBg_av_ok env s bg ta av ha] at h ⊢
          simp only [] at h
          refine ⟨tb, bg, ta, av, rfl, rfl, ?_, ?_, ?_⟩
          · rfl
          · exact (CreateResult.ok.inj h).1.symm
          · exact (CreateResult.ok.inj h).2.symm

theorem divFixed3_eq_fixed3 (n d : ℕ) (hd : 0 < d) :
    divFixed3 n d = fixed3 ((n : ℚ) / d) := by
  have hd0 : (d : ℚ) ≠ 0 := Nat.cast_ne_zero.mpr hd.ne'
  have hq : ((n : ℚ) / d) * 1000 = ((n * 1000 : ℕ) : ℚ) / (d : ℚ) := by
    push_cast
    ring
  have hfloor : ⌊((n * 1000 : ℕ) : ℚ) / (d : ℚ)⌋₊ = n * 1000 / d := by
    rw [Nat.floor_div_nat, Nat.floor_natCast]
  have hdm : ((n * 1000 : ℕ) : ℚ) = (d : ℚ) * ((n * 1000 / d : ℕ) : ℚ) + ((n * 1000 % d : ℕ) : ℚ) := by
    exact_mod_cast (Nat.div_add_mod (n * 1000) d).symm
  have hsplit : ((n * 1000 : ℕ) : ℚ) / d = ((n * 1000 / d : ℕ) : ℚ) + ((n * 1000 % d : ℕ) : ℚ) / d := by
    rw [hdm]
    field_simp
    ring
  have hr : ((n * 1000 : ℕ) : ℚ) / d - ((n * 1000 / d : ℕ) : ℚ) = ((n * 1000 % d : ℕ) : ℚ) / d := by
    rw [hsplit]
    ring
  have hlt : (((n * 1000 % d : ℕ) : ℚ) / d < 1/2) ↔ 2 * (n * 1000 % d) < d := by
    rw [div_lt_div_iff₀ (by positivity) (by norm_num), one_mul]
    norm_cast
    omega
  have hgt : (1/2 < ((n * 1000 % d : ℕ) : ℚ) / d) ↔ d < 2 * (n * 1000 % d) := by
    rw [div_lt_div_iff₀ (by norm_num) (by positivity), one_mul]
    norm_cast
    omega
  simp only [divFixed3, fixed3, hq, hfloor, hr, hlt, hgt]

/-- C3: the number formatter renders n ≥ 1,000,000 as n / 1,000,000 with
three fixed decimals and suffix "M", renders 1,000 ≤ n < 1,000,000 as
n / 1,000 with three fixed decimals and suffix "K", and renders n < 1,000
as the decimal string of n; concretely format(999) = "999",
format(1000) = "1.000K", format(1500000) = "1.500M", format(999999) keeps
suffix "K" and format(1000000) becomes suffix "M". -/
theorem C3_number_formatter :
    (∀ n : ℕ, 1000000 ≤ n →
      RankCard._convert_number n = fixed3 ((n : ℚ) / 1000000) ++ "M")
    ∧ (∀ n : ℕ, 1000 ≤ n → n < 1000000 →
      RankCard._convert_number n = fixed3 ((n : ℚ) / 1000) ++ "K")
    ∧ (∀ n : ℕ, n < 1000 → RankCard._convert_number n = toString n)
    ∧ RankCard._convert_number 999 = "999"
    ∧ RankCard._convert_number 1000 = "1.000K"
    ∧ RankCard._convert_number 1500000 = "1.500M"
    ∧ RankCard._convert_number 999999 = "999.999" ++ "K"
    ∧ RankCard._convert_number 1000000 = "1.000" ++ "M" := by
  refine ⟨?_, ?_, ?_, by decide, by decide, by decide, by decide, by decide⟩
  · intro n hn
    unfold RankCard._convert_number
    rw [if_pos hn, divFixed3_eq_fixed3 n 1000000 (by norm_num)]
    norm_num
  · intro n h1 h2
    unfold RankCard._convert_number
    rw [if_neg (by omega), if_pos h1, divFixed3_eq_fixed3 n 1000 (by norm_num)]
    norm_num
  · intro n h
    unfold RankCard._convert_number
    rw [if_neg (by omega), if_neg (by omega)]

/-- C3 witness: the three quantified clauses at concrete inputs. -/
theorem C3_number_formatter_witness :
    RankCard._convert_number 2500000 = fixed3 ((2500000 : ℚ) / 1000000) ++ "M"
    ∧ RankCard._convert_number 1500 = fixed3 ((1500 : ℚ) / 1000) ++ "K"
    ∧ RankCard._convert_number 42 = toString 42 :=
  ⟨C3_number_formatter.1 2500000 (by decide),
   C3_number_formatter.2.1 1500 (by decide) (by decide),
   C3_number_formatter.2.2.1 42 (by decide)⟩

/-- C8: the progress-bar geometry at the spec's sample points: 0/100 gives
the 50-pixel floor clamp, 100/100 gives the full 420 pixels, and 50/100
gives the exact linear 210 pixels. -/
theorem C8_bar_sample_points :
    RankCard.bar_exp 0 100 = 50
    ∧ RankCard.bar_exp 100 100 = 420
    ∧ RankCard.bar_exp 50 100 = 210 := by
  refine ⟨?_, ?_, ?_⟩ <;> norm_num [RankCard.bar_exp]

/-- C1 as stated is false: with currentXp = 200, maxXp = 100 the code
computes a filled width of 840, exceeding 420, while the claimed clamp
formula gives 420 — the source has no upper clamp. -/
theorem C1_counterexample :
    RankCard.bar_exp 200 100 = 840
    ∧ barSpecClamp 200 100 = 420
    ∧ ¬ RankCard.bar_exp 200 100 ≤ 420 := by
  refine ⟨?_, ?_, ?_⟩ <;> norm_num [RankCard.bar_exp, barSpecClamp]

/-- C1 (amended): for maxXp > 0 the filled width is
max(currentXp/maxXp · 420, 50): it is always at least 50 and it agrees with
the spec's clamp whenever currentXp ≤ maxXp, but it has no upper clamp, and
the fill rectangle drawn by a successful render uses exactly this value. -/
theorem C1_bar_width_amended :
    ∀ cx mx : ℕ, 0 < mx →
      RankCard.bar_exp cx mx = max (((cx : ℚ) / (mx : ℚ)) * 420) 50
      ∧ 50 ≤ RankCard.bar_exp cx mx
      ∧ (cx ≤ mx → RankCard.bar_exp cx mx = barSpecClamp cx mx)
      ∧ (∀ env s out s2, s.current_xp = cx → s.max_xp = mx →
          (RankCard.create env s).2 = .ok out s2 →
          Effect.drawRect 0 0 (RankCard.bar_exp cx mx) 50 30 ∈ (RankCard.create env s).1) := by
  intro cx mx hmx
  have hmax : RankCard.bar_exp cx mx = max (((cx : ℚ) / (mx : ℚ)) * 420) 50 := by
    unfold RankCard.bar_exp
    rcases le_or_lt (((cx : ℚ) / (mx : ℚ)) * 420) 50 with h | h
    · rw [if_pos h, max_eq_right h]
    · rw [if_neg (not_le.mpr h), max_eq_left h.le]
  refine ⟨hmax, hmax ▸ le_max_right _ _, ?_, ?_⟩
  · intro hle
    have h420 : ((cx : ℚ) / (mx : ℚ)) * 420 ≤ 420 := by
      have hratio : ((cx : ℚ) / (mx : ℚ)) ≤ 1 := by
        rw [div_le_one (by exact_mod_cast hmx)]
        exact_mod_cast hle
      nlinarith
    rw [hmax, barSpecClamp, min_eq_left (max_le h420 (by norm_num))]
  · intro env s out s2 hcx hmx2 hok
    obtain ⟨tb, bg, ta, av, -, -, htr, -, -⟩ := create_ok_inv env s out s2 hok
    subst hcx
    subst hmx2
    rw [htr]
    simp [RankCard.composePhase]

/-- C1 witness: the amended statement at currentXp = 50, maxXp = 100, where
the computed width coincides with the spec clamp. -/
theorem C1_bar_width_amended_witness :
    RankCard.bar_exp 50 100 = barSpecClamp 50 100 :=
  (C1_bar_width_amended 50 100 (by decide)).2.2.1 (by decide)

/-- C2 as stated is false: with a URL background and a non-string avatar,
the background fetch is performed, and only afterwards does the avatar type
check raise InvalidImageType — network I/O does happen before that check
fails. -/
theorem C2_counterexample :
    (RankCard.create env0 stC2).2
      = .err .invalidImageType { stC2 with background := ImgSource.image ⟨600, 600⟩ }
    ∧ (RankCard.create env0 stC2).1 = [Effect.fetch "http://cdn.example/bg.png"] := by
  exact ⟨by decide, rfl⟩

/-- C2 (amended): when the avatar source is not a string, create raises
InvalidImageType and attempts no avatar I/O — but only after the background
has been resolved, so any fetch or file open the background needs does
happen before the avatar type check fails (its trace is exactly the
background's I/O). -/
theorem C2_avatar_type_check_amended :
    ∀ env s tb bg, isStrSource s.avatar = false →
      RankCard.resolveBg env s.background = (tb, .ok bg) →
      RankCard.create env s
        = (tb, .err .invalidImageType { s with background := ImgSource.image bg }) := by
  intro env s tb bg hav hbg
  have hres : RankCard.resolveAvatar env s.avatar = ([], .error .invalidImageType) := by
    cases h : s.avatar <;> simp_all [RankCard.resolveAvatar, isStrSource]
  rw [create_bg_ok env s tb bg hbg, afterBg_av_err env s bg [] .invalidImageType hres,
    List.append_nil]

/-- C2 witness: a local-path background with an integer avatar: the file
open happens, then InvalidImageType is raised. -/
theorem C2_avatar_type_check_amended_witness :
    RankCard.create env0 stAvatarInt
      = ([Effect.fileOpen "backgrounds/bg.png" "rb"],
         .err .invalidImageType { stAvatarInt with background := ImgSource.image ⟨640, 360⟩ }) :=
  C2_avatar_type_check_amended env0 stAvatarInt [Effect.fileOpen "backgrounds/bg.png" "rb"]
    ⟨640, 360⟩ (by decide) rfl

/-- C4: a background given as a file buffer is rejected with
InvalidImageType — before any I/O — unless it is seekable, readable and in
binary read mode "rb"; in particular a text-mode ("r") buffer is rejected
regardless of its content, while a conforming buffer is decoded. -/
theorem C4_buffer_validation :
    ∀ env s sk rd m, s.background = ImgSource.buffer sk rd m →
      (¬(sk = true ∧ rd = true ∧ m = "rb") →
        RankCard.create env s = ([], .err .invalidImageType s))
      ∧ (m = "r" → RankCard.create env s = ([], .err .invalidImageType s))
      ∧ ((sk = true ∧ rd = true ∧ m = "rb") →
        RankCard.resolveBg env s.background = ([], .ok env.bufferImg)) := by
  intro env s sk rd m hbg
  have key : ¬(sk = true ∧ rd = true ∧ m = "rb") →
      RankCard.create env s = ([], .err .invalidImageType s) := by
    intro hno
    have hfalse : (sk && rd && (m == "rb")) = false := by
      rcases sk <;> rcases rd <;> by_cases hm : m = "rb" <;> simp_all
    apply create_bg_err
    rw [hbg]
    simp [RankCard.resolveBg, hfalse]
  refine ⟨key, ?_, ?_⟩
  · intro hm
    apply key
    rintro ⟨-, -, hrb⟩
    rw [hm] at hrb
    exact absurd hrb (by decide)
  · rintro ⟨h1, h2, h3⟩
    rw [hbg]
    simp [RankCard.resolveBg, h1, h2, h3]

/-- C4 witness: a seekable, readable buffer in text mode "r" is rejected. -/
theorem C4_buffer_validation_witness :
    RankCard.create env0 stBufText = ([], .err .invalidImageType stBufText) :=
  (C4_buffer_validation env0 stBufText true true "r" rfl).2.1 rfl

/-- C5: a remote fetch succeeds exactly when the HTTP status is 200: with
status 200 the decoded body is returned; with any other status
InvalidImageUrl is raised and the result does not depend on the body decode
(no image is decoded from that response); through create, a URL background
with a non-200 status aborts with InvalidImageUrl after that one fetch. -/
theorem C5_fetch_status :
    (∀ (fs : String → ℕ) (fi : String → RasterImage) (url : String) (img : RasterImage),
      RankCard._image fs fi url = .ok img → fs url = 200)
    ∧ (∀ (fs : String → ℕ) (fi : String → RasterImage) (url : String),
      fs url = 200 → RankCard._image fs fi url = .ok (fi url))
    ∧ (∀ (fs : String → ℕ) (fi fi2 : String → RasterImage) (url : String),
      fs url ≠ 200 →
        RankCard._image fs fi url = .error .invalidImageUrl
        ∧ RankCard._image fs fi url = RankCard._image fs fi2 url)
    ∧ (∀ env s url, s.background = ImgSource.str url → pyStartsWith url "http" = true →
        env.fetchStatus url ≠ 200 →
        RankCard.create env s = ([Effect.fetch url], .err .invalidImageUrl s)) := by
  refine ⟨?_, ?_, ?_, ?_⟩
  · intro fs fi url img h
    unfold RankCard._image at h
    split at h
    · cases h
    · next hne => exact not_ne_iff.mp hne
  · intro fs fi url h
    simp [RankCard._image, h]
  · intro fs fi fi2 url hne
    constructor <;> simp [RankCard._image, hne]
  · intro env s url hbg hpre hne
    apply create_bg_err
    rw [hbg]
    simp [RankCard.resolveBg, hpre, RankCard._image, hne]

/-- C5 witness: a 404 on the background URL raises InvalidImageUrl after
the single fetch. -/
theorem C5_fetch_status_witness :
    RankCard.create env404 stC5
      = ([Effect.fetch "http://cdn.example/bg.png"], .err .invalidImageUrl stC5) :=
  C5_fetch_status.2.2.2 env404 stC5 "http://cdn.example/bg.png" rfl (by decide) (by decide)

/-- C6: the "{currentXp}/{maxXp}" string is right-aligned: in every
successful render its width w is measured with the 30-point font and it is
drawn at x = 638 − w − 50, at the same y coordinate 327/2 + 125 = 288.5 as
the "LEVEL - ..." text. -/
theorem C6_xp_right_aligned :
    ∀ env s out s2, (RankCard.create env s).2 = .ok out s2 →
      (Effect.drawText
          (638 - env.textWidth 30
            (RankCard._convert_number s.current_xp ++ "/" ++ RankCard._convert_number s.max_xp) - 50)
          (327/2 + 125)
          (RankCard._convert_number s.current_xp ++ "/" ++ RankCard._convert_number s.max_xp) 30
        ∈ (RankCard.create env s).1)
      ∧ (Effect.drawText 197 (327/2 + 125)
          ("LEVEL - " ++ RankCard._convert_number s.level) 30
        ∈ (RankCard.create env s).1)
      ∧ ((327/2 + 125 : ℚ) = 288.5) := by
  intro env s out s2 hok
  obtain ⟨tb, bg, ta, av, -, -, htr, -, -⟩ := create_ok_inv env s out s2 hok
  refine ⟨?_, ?_, by norm_num⟩ <;> rw [htr] <;> simp [RankCard.composePhase]

/-- C6 witness: the two draw commands in the concrete render of st0. -/
theorem C6_xp_right_aligned_witness :
    (Effect.drawText
        (638 - env0.textWidth 30
          (RankCard._convert_number st0.current_xp ++ "/" ++ RankCard._convert_number st0.max_xp) - 50)
        (327/2 + 125)
        (RankCard._convert_number st0.current_xp ++ "/" ++ RankCard._convert_number st0.max_xp) 30
      ∈ (RankCard.create env0 st0).1)
    ∧ (Effect.drawText 197 (327/2 + 125)
        ("LEVEL - " ++ RankCard._convert_number st0.level) 30
      ∈ (RankCard.create env0 st0).1)
    ∧ ((327/2 + 125 : ℚ) = 288.5) :=
  C6_xp_right_aligned env0 st0 ⟨505, 259, "PNG", 0⟩ st0Final (by decide)

/-- C7: every successful create returns a PNG-encoded buffer of the fixed
final dimensions 505×259 whose read position has been reset to 0. -/
theorem C7_output_buffer :
    ∀ env s out s2, (RankCard.create env s).2 = .ok out s2 →
      out.width = 505 ∧ out.height = 259 ∧ out.format = "PNG" ∧ out.pos = 0 := by
  intro env s out s2 hok
  obtain ⟨tb, bg, ta, av, -, -, -, hout, -⟩ := create_ok_inv env s out s2 hok
  subst hout
  exact ⟨rfl, rfl, rfl, rfl⟩

/-- C7 witness: the concrete render of st0. -/
theorem C7_output_buffer_witness :
    (OutBuffer.mk 505 259 "PNG" 0).width = 505
    ∧ (OutBuffer.mk 505 259 "PNG" 0).height = 259
    ∧ (OutBuffer.mk 505 259 "PNG" 0).format = "PNG"
    ∧ (OutBuffer.mk 505 259 "PNG" 0).pos = 0 :=
  C7_output_buffer env0 st0 ⟨505, 259, "PNG", 0⟩ st0Final (by decide)

/-- C9: create is not repeatable on the same instance: after a successful
call the background field holds a decoded image (neither a buffer nor a
string), so a second call on the resulting state raises InvalidImageType,
whatever the environment, with no I/O at all. -/
theorem C9_not_repeatable :
    ∀ env s out s2, (RankCard.create env s).2 = .ok out s2 →
      (∃ img, s2.background = ImgSource.image img)
      ∧ (∀ env2, RankCard.create env2 s2 = ([], .err .invalidImageType s2)) := by
  intro env s out s2 hok
  obtain ⟨tb, bg, ta, av, -, -, -, -, hs2⟩ := create_ok_inv env s out s2 hok
  subst hs2
  refine ⟨⟨_, rfl⟩, fun env2 => ?_⟩
  apply create_bg_err
  rfl

/-- C9 witness: a second create on the state left by the successful render
of st0 raises InvalidImageType. -/
theorem C9_not_repeatable_witness :
    RankCard.create env0 st0Final = ([], .err .invalidImageType st0Final) :=
  (C9_not_repeatable env0 st0 ⟨505, 259, "PNG", 0⟩ st0Final (by decide)).2 env0

/-- C10: an avatar string that does not start with "http" is not rejected
with InvalidImageType: create treats it as a local filesystem path and
opens it for binary read with open(path, "rb"), and — the background having
resolved — the render completes, although the RankCard docstring says the
avatar can only be a URL. -/
theorem C10_avatar_local_path :
    ∀ env s a tb bg, s.avatar = ImgSource.str a → pyStartsWith a "http" = false →
      RankCard.resolveBg env s.background = (tb, .ok bg) →
      Effect.fileOpen a "rb" ∈ (RankCard.create env s).1
      ∧ (∃ out s2, (RankCard.create env s).2 = .ok out s2) := by
  intro env s a tb bg hav hpre hbg
  have ha : RankCard.resolveAvatar env s.avatar
      = ([Effect.fileOpen a "rb"], .ok (env.fileImg a)) := by
    rw [hav]
    simp [RankCard.resolveAvatar, hpre]
  rw [create_bg_ok env s tb bg hbg, afterBg_av_ok env s bg _ _ ha]
  constructor
  · simp
  · exact ⟨_, _, rfl⟩

/-- C10 witness: the concrete avatar path "avatars/me.png" is opened in
"rb" mode during the render. -/
theorem C10_avatar_local_path_witness :
    Effect.fileOpen "avatars/me.png" "rb" ∈ (RankCard.create env0 stC10).1 :=
  (C10_avatar_local_path env0 stC10 "avatars/me.png"
    [Effect.fileOpen "backgrounds/bg.png" "rb"] ⟨640, 360⟩ rfl (by decide) rfl).1
